import Mathlib

/-!
Verification of the IPCA inflation dashboard (src/app.py) against its
specification.  Dates are modelled as month indices (natural numbers, so
consecutive calendar months differ by 1; the SGS series 433 carries one
observation per month, dated the first day of the month) and percentage
values as rationals.
-/

namespace BrazilInflation

/-- One parsed observation of the inflation series: `data` is the month
index of the observation and `valor` the monthly percentage variation. -/
structure Obs where
  data : Nat
  valor : ℚ
deriving DecidableEq, Repr

/-- A pandas DataFrame as the script uses it.  `hasData` records whether
the frame has the `data`/`valor` columns: a frame built from an empty
record list (what a failed fetch returns) has no columns at all. -/
structure DF where
  hasData : Bool
  rows : List Obs
deriving DecidableEq, Repr

/-- `fetch_inflation_data` (src/app.py lines 23-40).  When the request
succeeds and every record parses, the parsed rows are returned in source
order (the code applies `to_datetime` and `astype(float)` column-wise,
which preserve row order).  Any transport or parse failure is caught and
an empty `pd.DataFrame()` is returned, which has no columns.  The input
`resp` is the parse outcome: `some rows` when everything parsed, `none`
on any failure. -/
def fetch_inflation_data (resp : Option (List Obs)) : DF :=
  match resp with
  | some rows => ⟨true, rows⟩
  | none => ⟨false, []⟩

/-- The window-filtering logic (src/app.py lines 61-65).  When the widget
returns exactly two dates, rows are kept when `start ≤ data ≤ end` (both
comparisons inclusive); any other shape — in particular a single date —
falls through to a copy of the full frame. -/
def df_filtered (rows : List Obs) (dateRange : List Nat) : List Obs :=
  match dateRange with
  | [s, e] => rows.filter (fun o => decide (s ≤ o.data) && decide (o.data ≤ e))
  | _ => rows

/-- Cumulative compounded inflation (src/app.py line 69):
`(((df_filtered[valor] / 100) + 1).prod() - 1) * 100`.  The pandas
product of an empty column is 1. -/
def cumulative_inflation (valor : List ℚ) : ℚ :=
  ((valor.map (fun v => v / 100 + 1)).prod - 1) * 100

/-- Pandas `Series.mean` as used at src/app.py line 74: the arithmetic
mean of the column, and NaN (modelled as `none`) on an empty column. -/
def mean_valor (valor : List ℚ) : Option ℚ :=
  match valor with
  | [] => none
  | v :: vs => some ((v :: vs).sum / ((v :: vs).length : ℚ))

/-- Pandas `Series.max` as used at src/app.py line 75: the maximum entry
of the column, and NaN (modelled as `none`) on an empty column. -/
def max_valor (valor : List ℚ) : Option ℚ :=
  match valor with
  | [] => none
  | v :: vs => some (vs.foldl max v)

/-- `df[data].min()` (src/app.py line 48): smallest date of the column,
`none` when the column is empty. -/
def min_date : List Obs → Option Nat
  | [] => none
  | o :: t => some (t.foldl (fun m x => min m x.data) o.data)

/-- `df[data].max()` (src/app.py line 49): largest date of the column,
`none` when the column is empty. -/
def max_date : List Obs → Option Nat
  | [] => none
  | o :: t => some (t.foldl (fun m x => max m x.data) o.data)

/-- Errors pandas raises that the script does not catch. -/
inductive PandasError
  | keyError
deriving DecidableEq, Repr

/-- Sorting of the rows by date, as `sort_values` does on a frame that
has the column. -/
def sortRows (rows : List Obs) : List Obs :=
  rows.mergeSort (fun a b => decide (a.data ≤ b.data))

/-- `df.copy().sort_values(data)` (src/app.py line 113): raises an
uncaught `KeyError` when the frame has no `data` column — which is
exactly the empty frame a failed fetch returns — and otherwise sorts the
rows ascending by date. -/
def sort_values_data (df : DF) : Except PandasError DF :=
  if df.hasData then Except.ok ⟨true, sortRows df.rows⟩
  else Except.error PandasError.keyError

/-- Reindexing lookup: the value at month `m` of the original rows, if
any observation carries that month. -/
def lookupMonth (rows : List Obs) (m : Nat) : Option ℚ :=
  (rows.find? (fun o => decide (o.data = m))).map Obs.valor

/-- `set_index(data).asfreq(MS)` (src/app.py lines 114-115): the frame is
reindexed onto the full monthly grid from the first to the last index
entry; a month with an observation keeps its value, a missing month
becomes an explicit NaN entry (modelled as `none`). -/
def asfreqMS (rows : List Obs) : List (Nat × Option ℚ) :=
  match rows.head?, rows.getLast? with
  | some lo, some hi =>
      (List.range (hi.data + 1 - lo.data)).map
        (fun i => (lo.data + i, lookupMonth rows (lo.data + i)))
  | _, _ => []

/-- `df_forecast.index[-1]` (src/app.py line 128): the last entry of the
reindexed monthly index. -/
def last_date (reindexed : List (Nat × Option ℚ)) : Option Nat :=
  reindexed.getLast?.map Prod.fst

/-- The fixed forecast horizon (src/app.py line 122). -/
def forecast_steps : Nat := 6

/-- `pd.date_range(start=last_date + 1 month, periods=steps, freq=MS)`
(src/app.py line 129): `steps` consecutive months starting one month
after `ld`. -/
def forecast_dates (ld : Nat) (steps : Nat) : List Nat :=
  (List.range steps).map (fun i => ld + 1 + i)

/-- One row of the forecast table `predict_df`. -/
structure FPoint where
  date : Nat
  forecast : ℚ
  lower : ℚ
  upper : ℚ
deriving DecidableEq, Repr

/-- Modelled from the spec: the interval construction inside
`model_fit.get_forecast(...).summary_frame()` lives in statsmodels, not
in this repository.  The spec describes a two-sided per-step confidence
interval at a fixed level, i.e. `mean ± z·se` for a critical value `z`
and a per-step standard error; each input row is a (mean, standard
error) pair and each output row is (mean, lower, upper). -/
def summary_frame (z : ℚ) (ms : List (ℚ × ℚ)) : List (ℚ × ℚ × ℚ) :=
  ms.map (fun p => (p.1, p.1 - z * p.2, p.1 + z * p.2))

/-- `predict_df` (src/app.py lines 131-136): pairs the generated forecast
dates with the mean / lower-bound / upper-bound columns of the summary
frame. -/
def predict_df (dates : List Nat) (sf : List (ℚ × ℚ × ℚ))
    : List FPoint :=
  List.zipWith (fun d r => ⟨d, r.1, r.2.1, r.2.2⟩) dates sf

/-- What the KPI block of the page shows. -/
inductive KpiRender
  | kpis (cum : ℚ) (mean : Option ℚ) (mx : Option ℚ)
  | noData
deriving DecidableEq, Repr

/-- What the forecast block of the page shows: a chart on success, the
stage-scoped warning when the fit raised inside the try block. -/
inductive ForecastRender
  | chart (pts : List FPoint)
  | warn
deriving DecidableEq, Repr

/-- The rendered page: the KPI/chart block and the forecast block. -/
structure PageRender where
  kpi : KpiRender
  forecast : ForecastRender
deriving DecidableEq, Repr

/-- The KPI block (src/app.py lines 44-75): when the frame is nonempty
the three metrics are computed over the filtered window and shown;
otherwise the page shows the no-data warning. -/
def kpiBlock (rows : List Obs) (dateRange : List Nat) : KpiRender :=
  if rows.isEmpty then KpiRender.noData
  else
    KpiRender.kpis
      (cumulative_inflation ((df_filtered rows dateRange).map Obs.valor))
      (mean_valor ((df_filtered rows dateRange).map Obs.valor))
      (max_valor ((df_filtered rows dateRange).map Obs.valor))

/-- The page script after the fetch (src/app.py lines 44-153).  The
KPI/chart block renders when the frame is nonempty and shows a warning
otherwise.  The forecast preparation — `sort_values`, `set_index`,
`asfreq` (lines 113-115) — runs outside any handler, so an error there
aborts the render (`Except.error`).  The try block (lines 117-152)
turns any failure of the fitting and forecasting into a stage warning;
the parameter `fit` abstracts the ARIMA fit on the reindexed series,
with `none` modelling an exception inside the try block. -/
def renderPage (df : DF) (dateRange : List Nat)
    (fit : List (Nat × Option ℚ) → Option (List FPoint))
    : Except PandasError PageRender :=
  match sort_values_data df with
  | Except.error e => Except.error e
  | Except.ok sorted =>
      match fit (asfreqMS sorted.rows) with
      | some pts =>
          Except.ok ⟨kpiBlock df.rows dateRange, ForecastRender.chart pts⟩
      | none =>
          Except.ok ⟨kpiBlock df.rows dateRange, ForecastRender.warn⟩

/-! ### Helper lemmas -/

theorem foldl_min_le_init (t : List Obs) (a : Nat) :
    t.foldl (fun m x => min m x.data) a ≤ a := by
  induction t generalizing a with
  | nil => exact Nat.le_refl a
  | cons x xs ih =>
      exact Nat.le_trans (ih (min a x.data)) (Nat.min_le_left _ _)

theorem foldl_min_le_mem (t : List Obs) :
    ∀ (a : Nat) (o : Obs), o ∈ t →
      t.foldl (fun m x => min m x.data) a ≤ o.data := by
  induction t with
  | nil => intro a o ho; cases ho
  | cons x xs ih =>
      intro a o ho
      rcases List.mem_cons.mp ho with rfl | h
      · exact Nat.le_trans (foldl_min_le_init xs _) (Nat.min_le_right _ _)
      · exact ih _ o h

theorem init_le_foldl_max (t : List Obs) (a : Nat) :
    a ≤ t.foldl (fun m x => max m x.data) a := by
  induction t generalizing a with
  | nil => exact Nat.le_refl a
  | cons x xs ih =>
      exact Nat.le_trans (Nat.le_max_left _ _) (ih (max a x.data))

theorem mem_le_foldl_max (t : List Obs) :
    ∀ (a : Nat) (o : Obs), o ∈ t →
      o.data ≤ t.foldl (fun m x => max m x.data) a := by
  induction t with
  | nil => intro a o ho; cases ho
  | cons x xs ih =>
      intro a o ho
      rcases List.mem_cons.mp ho with rfl | h
      · exact Nat.le_trans (Nat.le_max_right _ _) (init_le_foldl_max xs _)
      · exact ih _ o h

theorem min_date_le (rows : List Obs) (lo : Nat)
    (hlo : min_date rows = some lo) : ∀ o ∈ rows, lo ≤ o.data := by
  cases rows with
  | nil => simp [min_date] at hlo
  | cons r t =>
      simp only [min_date, Option.some.injEq] at hlo
      intro o ho
      rcases List.mem_cons.mp ho with rfl | h
      · rw [← hlo]; exact foldl_min_le_init t o.data
      · rw [← hlo]; exact foldl_min_le_mem t r.data o h

theorem le_max_date (rows : List Obs) (hi : Nat)
    (hhi : max_date rows = some hi) : ∀ o ∈ rows, o.data ≤ hi := by
  cases rows with
  | nil => simp [max_date] at hhi
  | cons r t =>
      simp only [max_date, Option.some.injEq] at hhi
      intro o ho
      rcases List.mem_cons.mp ho with rfl | h
      · rw [← hhi]; exact init_le_foldl_max t o.data
      · rw [← hhi]; exact mem_le_foldl_max t r.data o h

theorem sorted_head_le_mem {r : Obs} {t : List Obs}
    (hs : List.Pairwise (fun a b : Obs => a.data < b.data) (r :: t)) :
    ∀ o ∈ r :: t, r.data ≤ o.data := by
  intro o ho
  rcases List.mem_cons.mp ho with rfl | h
  · exact Nat.le_refl _
  · exact Nat.le_of_lt ((List.pairwise_cons.mp hs).1 o h)

theorem sorted_le_getLast :
    ∀ rows : List Obs,
      List.Pairwise (fun a b : Obs => a.data < b.data) rows →
      ∀ x, rows.getLast? = some x → ∀ o ∈ rows, o.data ≤ x.data := by
  intro rows
  induction rows with
  | nil => intro _ x hx; simp at hx
  | cons a t ih =>
      intro hs x hx o ho
      cases t with
      | nil =>
          simp only [List.getLast?_singleton, Option.some.injEq] at hx
          rcases List.mem_cons.mp ho with rfl | h
          · rw [← hx]
          · cases h
      | cons b t2 =>
          rw [List.getLast?_cons_cons] at hx
          have hs2 := (List.pairwise_cons.mp hs).2
          rcases List.mem_cons.mp ho with rfl | h
          · have hob : o.data < b.data :=
              (List.pairwise_cons.mp hs).1 b (List.mem_cons_self b t2)
            have hbx : b.data ≤ x.data :=
              ih hs2 x hx b (List.mem_cons_self b t2)
            omega
          · exact ih hs2 x hx o h

theorem sorted_data_nodup {rows : List Obs}
    (hs : List.Pairwise (fun a b : Obs => a.data < b.data) rows) :
    (rows.map Obs.data).Nodup :=
  List.pairwise_map.mpr (hs.imp (fun h => Nat.ne_of_lt h))

theorem lookupMonth_eq_some {rows : List Obs}
    (hnd : (rows.map Obs.data).Nodup) {o : Obs} (ho : o ∈ rows) :
    lookupMonth rows o.data = some o.valor := by
  induction rows with
  | nil => cases ho
  | cons a t ih =>
      rcases List.mem_cons.mp ho with rfl | h
      · simp [lookupMonth]
      · have hmt : o.data ∈ t.map Obs.data := List.mem_map_of_mem _ h
        have hndc : (a.data :: t.map Obs.data).Nodup := by
          rw [List.map_cons] at hnd; exact hnd
        have hnd2 := List.nodup_cons.mp hndc
        have hne : a.data ≠ o.data := fun hc => hnd2.1 (hc ▸ hmt)
        have : lookupMonth (a :: t) o.data = lookupMonth t o.data := by
          simp only [lookupMonth]
          rw [List.find?_cons_of_neg _ (by simpa using hne)]
        rw [this]
        exact ih hnd2.2 h

theorem lookupMonth_eq_none {rows : List Obs} {m : Nat}
    (hm : m ∉ rows.map Obs.data) : lookupMonth rows m = none := by
  have h : rows.find? (fun o => decide (o.data = m)) = none := by
    rw [List.find?_eq_none]
    intro x hx
    simp only [decide_eq_true_eq]
    exact fun hc => hm (hc ▸ List.mem_map_of_mem _ hx)
  simp [lookupMonth, h]

theorem asfreqMS_eq (rows : List Obs) (r x : Obs)
    (hr : rows.head? = some r) (hx : rows.getLast? = some x) :
    asfreqMS rows =
      (List.range (x.data + 1 - r.data)).map
        (fun i => (r.data + i, lookupMonth rows (r.data + i))) := by
  unfold asfreqMS
  rw [hr, hx]

theorem getLast?_range_map {α : Type} (f : Nat → α) (n : Nat) (hn : n ≠ 0) :
    ((List.range n).map f).getLast? = some (f (n - 1)) := by
  rw [List.getLast?_eq_getElem?, List.length_map, List.length_range,
    List.getElem?_map, List.getElem?_range (by omega)]
  rfl

/-! ### Claim theorems -/

/-- Claim C10: on an empty window the cumulative-inflation computation
still returns a value, exactly 0 percent (the pandas product over the
empty window is 1), while the mean and max KPIs are NaN (modelled as
`none`); no error value is produced at this interface. -/
theorem c10_empty_window_values :
    (([] : List ℚ).map (fun v => v / 100 + 1)).prod = 1 ∧
    cumulative_inflation [] = 0 ∧
    mean_valor [] = none ∧
    max_valor [] = none := by
  refine ⟨rfl, ?_, rfl, rfl⟩
  simp [cumulative_inflation]

/-- Claim C1, counterexample: on a window with zero observations the
aggregate computation does not fail at all — it returns the cumulative
value 0 and NaN mean/max, and the KPI block still renders them (here on
the concrete series with one observation at month 5, windowed to the
empty range of months 1 to 2). -/
theorem c1_counterexample :
    kpiBlock [⟨5, 1⟩] [1, 2] = KpiRender.kpis 0 none none ∧
    cumulative_inflation [] = 0 ∧
    mean_valor [] = none ∧
    max_valor [] = none := by
  have h0 : cumulative_inflation [] = 0 := by simp [cumulative_inflation]
  refine ⟨?_, h0, rfl, rfl⟩
  have hw : df_filtered [⟨5, 1⟩] [1, 2] = [] := by decide
  simp [kpiBlock, hw, h0, mean_valor, max_valor]

/-- Claim C1 as amended: for every window with zero observations the
aggregate computation does not fail with an error; it returns the
cumulative compounded change 0 percent while the mean and max are NaN
(`none`), so the caller renders the KPIs instead of short-circuiting. -/
theorem c1_amended (w : List Obs) (hw : w = []) :
    cumulative_inflation (w.map Obs.valor) = 0 ∧
    mean_valor (w.map Obs.valor) = none ∧
    max_valor (w.map Obs.valor) = none := by
  subst hw
  exact ⟨by simp [cumulative_inflation], rfl, rfl⟩

/-- Witness for the amended claim C1, at the empty window. -/
theorem c1_amended_witness :
    cumulative_inflation (List.map Obs.valor []) = 0 ∧
    mean_valor (List.map Obs.valor []) = none ∧
    max_valor (List.map Obs.valor []) = none :=
  c1_amended [] rfl

/-- Claim C2, counterexample: `fetch_inflation_data` keeps the source
order and duplicates — on the parsed input `[(3, 1), (1, 2), (1, 2)]` it
returns exactly that list, which is not sorted ascending by date and
whose dates are not deduplicated. -/
theorem c2_counterexample :
    (fetch_inflation_data (some [⟨3, 1⟩, ⟨1, 2⟩, ⟨1, 2⟩])).rows
      = [⟨3, 1⟩, ⟨1, 2⟩, ⟨1, 2⟩] ∧
    ¬ List.Pairwise (fun a b : Obs => a.data ≤ b.data)
        (fetch_inflation_data (some [⟨3, 1⟩, ⟨1, 2⟩, ⟨1, 2⟩])).rows ∧
    ¬ ((fetch_inflation_data (some [⟨3, 1⟩, ⟨1, 2⟩, ⟨1, 2⟩])).rows.map
        Obs.data).Nodup := by
  refine ⟨rfl, ?_, ?_⟩ <;> decide

/-- Claim C2 as amended: `fetch_inflation_data` returns the parsed
records exactly in source order — it neither sorts nor deduplicates —
and on any transport or parse failure it returns the empty, column-less
frame. -/
theorem c2_amended (rows : List Obs) :
    (fetch_inflation_data (some rows)).rows = rows ∧
    (fetch_inflation_data none).rows = [] ∧
    (fetch_inflation_data none).hasData = false :=
  ⟨rfl, rfl, rfl⟩

/-- Claim C4, counterexample: on the window `[1.0, 2.0, -1.0]` the
cumulative compounded change is exactly 1.9898 percent, which differs
from the 1.9698 percent stated in the claim by 0.02 — far beyond the
four quoted decimal places (tolerance 1/1000 here). -/
theorem c4_counterexample :
    cumulative_inflation [1, 2, -1] = 19898 / 10000 ∧
    ¬ |cumulative_inflation [1, 2, -1] - 19698 / 10000| ≤ 1 / 1000 := by
  have h : cumulative_inflation [1, 2, -1] = 19898 / 10000 := by
    simp [cumulative_inflation]
    norm_num
  refine ⟨h, ?_⟩
  rw [h, abs_le]
  push_neg
  norm_num

/-- Claim C4 as amended: for every window the cumulative compounded
change equals `(prod of (1 + v/100) - 1) * 100`; on `[1.0, 2.0, -1.0]`
it is exactly 1.9898 percent (not 1.9698), the mean is 2/3 percent
(0.6667 to four decimals), and the max is 2.0 percent. -/
theorem c4_amended (w : List ℚ) :
    cumulative_inflation w
      = ((w.map (fun v => 1 + v / 100)).prod - 1) * 100 ∧
    cumulative_inflation [1, 2, -1] = 19898 / 10000 ∧
    mean_valor [1, 2, -1] = some (2 / 3) ∧
    |(2 : ℚ) / 3 - 6667 / 10000| ≤ 1 / 10000 ∧
    max_valor [1, 2, -1] = some 2 := by
  have hf : (fun v : ℚ => v / 100 + 1) = (fun v : ℚ => 1 + v / 100) := by
    funext v; ring
  refine ⟨?_, ?_, ?_, ?_, ?_⟩
  · simp [cumulative_inflation, hf]
  · simp [cumulative_inflation]
    norm_num
  · norm_num [mean_valor]
  · rw [abs_le]
    constructor <;> norm_num
  · simp [max_valor, max_def]
    norm_num

/-- A three-observation series used to exercise the window selector. -/
def c5series : List Obs := [⟨0, 1⟩, ⟨1, 2⟩, ⟨2, 3⟩]

/-- Claim C5, counterexample: with both selection dates inside the range
of the series (months 0 to 2), transposed endpoints are not swapped —
selecting [2, 0] yields the empty window, while the swapped selection
[0, 2] would have yielded the whole (nonempty) series. -/
theorem c5_counterexample :
    df_filtered c5series [2, 0] = [] ∧
    df_filtered c5series [0, 2] = c5series ∧
    c5series ≠ [] := by
  refine ⟨?_, ?_, ?_⟩ <;> decide

/-- Claim C5 as amended: the selector is a plain inclusive filter.
Endpoints outside the range of dates act as if clamped — the result
equals that of the clamped range — but when start exceeds end the
result is the empty window; no swap is performed. -/
theorem c5_amended (rows : List Obs) (s e lo hi : Nat)
    (hlo : min_date rows = some lo) (hhi : max_date rows = some hi) :
    df_filtered rows [s, e]
      = if e < s then [] else df_filtered rows [max s lo, min e hi] := by
  by_cases hes : e < s
  · rw [if_pos hes]
    simp only [df_filtered]
    rw [List.filter_eq_nil_iff]
    intro o ho
    simp only [Bool.and_eq_true, decide_eq_true_eq]
    omega
  · rw [if_neg hes]
    simp only [df_filtered]
    apply List.filter_congr
    intro o ho
    have h1 := min_date_le rows lo hlo o ho
    have h2 := le_max_date rows hi hhi o ho
    rw [← Bool.decide_and, ← Bool.decide_and, decide_eq_decide]
    omega

/-- Witness for the amended claim C5, on a one-observation series at
month 1 with the requested range [0, 9]. -/
theorem c5_amended_witness :
    min_date [⟨1, 5⟩] = some 1 ∧
    max_date [⟨1, 5⟩] = some 1 ∧
    df_filtered [⟨1, 5⟩] [0, 9]
      = if 9 < 0 then [] else df_filtered [⟨1, 5⟩] [max 0 1, min 9 1] :=
  ⟨by decide, by decide, c5_amended [⟨1, 5⟩] 0 9 1 1 (by decide) (by decide)⟩

/-- Claim C9: supplying a single date (the malformed-input fallback)
returns the full unclipped series, and this is identical to selecting
the full [min, max] range. -/
theorem c9_single_date_fallback (rows : List Obs) (d lo hi : Nat)
    (hlo : min_date rows = some lo) (hhi : max_date rows = some hi) :
    df_filtered rows [d] = rows ∧
    df_filtered rows [lo, hi] = rows ∧
    df_filtered rows [d] = df_filtered rows [lo, hi] := by
  have h2 : df_filtered rows [lo, hi] = rows := by
    simp only [df_filtered]
    rw [List.filter_eq_self]
    intro o ho
    simp only [Bool.and_eq_true, decide_eq_true_eq]
    exact ⟨min_date_le rows lo hlo o ho, le_max_date rows hi hhi o ho⟩
  have h1 : df_filtered rows [d] = rows := rfl
  exact ⟨h1, h2, h1.trans h2.symm⟩

/-- Witness for claim C9, on a two-observation series with months 1 and
3 and the single malformed date 2. -/
theorem c9_witness :
    min_date [⟨1, 5⟩, ⟨3, 7⟩] = some 1 ∧
    max_date [⟨1, 5⟩, ⟨3, 7⟩] = some 3 ∧
    (df_filtered [⟨1, 5⟩, ⟨3, 7⟩] [2] = [⟨1, 5⟩, ⟨3, 7⟩] ∧
     df_filtered [⟨1, 5⟩, ⟨3, 7⟩] [1, 3] = [⟨1, 5⟩, ⟨3, 7⟩] ∧
     df_filtered [⟨1, 5⟩, ⟨3, 7⟩] [2]
       = df_filtered [⟨1, 5⟩, ⟨3, 7⟩] [1, 3]) :=
  ⟨by decide, by decide,
    c9_single_date_fallback [⟨1, 5⟩, ⟨3, 7⟩] 2 1 3 (by decide) (by decide)⟩

/-- Claim C7: with a nonnegative critical value and nonnegative per-step
standard errors, every row of `predict_df` built from the summary frame
satisfies lower bound ≤ point estimate ≤ upper bound. -/
theorem c7_bounds (z : ℚ) (hz : 0 ≤ z) (ms : List (ℚ × ℚ))
    (dates : List Nat) (hse : ∀ p ∈ ms, 0 ≤ p.2) :
    ∀ fp ∈ predict_df dates (summary_frame z ms),
      fp.lower ≤ fp.forecast ∧ fp.forecast ≤ fp.upper := by
  revert dates hse
  induction ms with
  | nil =>
      intro dates _ fp hfp
      simp [predict_df, summary_frame] at hfp
  | cons p ps ih =>
      intro dates hse fp hfp
      cases dates with
      | nil => simp [predict_df] at hfp
      | cons d ds =>
          simp only [predict_df, summary_frame, List.map_cons,
            List.zipWith_cons_cons] at hfp
          rcases List.mem_cons.mp hfp with rfl | h
          · have hp : 0 ≤ z * p.2 :=
              mul_nonneg hz (hse p (List.mem_cons_self p ps))
            refine ⟨?_, ?_⟩
            · show p.1 - z * p.2 ≤ p.1
              linarith
            · show p.1 ≤ p.1 + z * p.2
              linarith
          · exact ih ds (fun q hq => hse q (List.mem_cons_of_mem p hq)) fp h

/-- Witness for claim C7, at critical value 2 and the single step with
mean 1 and standard error 1/2. -/
theorem c7_witness :
    (0 : ℚ) ≤ 2 ∧
    FPoint.lower ⟨7, 1, 1 - 2 * (1 / 2), 1 + 2 * (1 / 2)⟩
      ≤ FPoint.forecast ⟨7, 1, 1 - 2 * (1 / 2), 1 + 2 * (1 / 2)⟩ ∧
    FPoint.forecast ⟨7, 1, 1 - 2 * (1 / 2), 1 + 2 * (1 / 2)⟩
      ≤ FPoint.upper ⟨7, 1, 1 - 2 * (1 / 2), 1 + 2 * (1 / 2)⟩ := by
  have h := c7_bounds 2 (by norm_num) [(1, 1 / 2)] [7]
    (by intro p hp; simp at hp; subst hp; norm_num)
    ⟨7, 1, 1 - 2 * (1 / 2), 1 + 2 * (1 / 2)⟩
    (by simp [predict_df, summary_frame])
  exact ⟨by norm_num, h.1, h.2⟩

/-- Claim C6: for a sorted deduplicated series whose last observation is
`x`, the last entry of the reindexed monthly index is the month of `x`,
and the generated forecast dates are exactly the six consecutive months
starting one month later; pairing them with a six-row summary frame
gives a `predict_df` with exactly `forecast_steps` points. -/
theorem c6_forecast_shape (rows : List Obs) (x : Obs)
    (hsorted : List.Pairwise (fun a b : Obs => a.data < b.data) rows)
    (hx : rows.getLast? = some x)
    (sf : List (ℚ × ℚ × ℚ)) (hsf : sf.length = forecast_steps) :
    last_date (asfreqMS rows) = some x.data ∧
    forecast_dates x.data forecast_steps
      = [x.data + 1, x.data + 2, x.data + 3, x.data + 4, x.data + 5,
         x.data + 6] ∧
    List.Chain' (fun a b => b = a + 1)
      (forecast_dates x.data forecast_steps) ∧
    (forecast_dates x.data forecast_steps).head? = some (x.data + 1) ∧
    (predict_df (forecast_dates x.data forecast_steps) sf).length
      = forecast_steps := by
  have hdates : forecast_dates x.data forecast_steps
      = [x.data + 1, x.data + 2, x.data + 3, x.data + 4, x.data + 5,
         x.data + 6] := by
    show (List.range 6).map (fun i => x.data + 1 + i) = _
    rw [show List.range 6 = [0, 1, 2, 3, 4, 5] from rfl]
    simp only [List.map_cons, List.map_nil, List.cons.injEq, and_true]
  cases rows with
  | nil => simp at hx
  | cons r t =>
      have hr : (r :: t).head? = some r := rfl
      have hrx : r.data ≤ x.data :=
        sorted_le_getLast (r :: t) hsorted x hx r (List.mem_cons_self r t)
      have hk : x.data + 1 - r.data ≠ 0 := by omega
      have hlast : last_date (asfreqMS (r :: t)) = some x.data := by
        rw [asfreqMS_eq (r :: t) r x hr hx]
        simp only [last_date]
        rw [getLast?_range_map _ _ hk]
        simp only [Option.map_some', Option.some.injEq]
        omega
      have hchain : List.Chain' (fun a b => b = a + 1)
          (forecast_dates x.data forecast_steps) := by
        rw [hdates]
        simp only [List.chain'_cons, List.chain'_singleton, and_true]
      have hlen : (predict_df (forecast_dates x.data forecast_steps)
          sf).length = forecast_steps := by
        rw [hdates]
        simp [predict_df, List.length_zipWith, hsf]
        rfl
      exact ⟨hlast, hdates, hchain, by rw [hdates]; rfl, hlen⟩

/-- Witness for claim C6, on the two-observation series at months 0 and
1 with a six-row summary frame of zeros. -/
theorem c6_witness :
    List.Pairwise (fun a b : Obs => a.data < b.data) [⟨0, 1⟩, ⟨1, 2⟩] ∧
    [(⟨0, 1⟩ : Obs), ⟨1, 2⟩].getLast? = some ⟨1, 2⟩ ∧
    ([((0 : ℚ), (0 : ℚ), (0 : ℚ)), (0, 0, 0), (0, 0, 0), (0, 0, 0),
      (0, 0, 0), (0, 0, 0)] : List (ℚ × ℚ × ℚ)).length = forecast_steps ∧
    (last_date (asfreqMS [⟨0, 1⟩, ⟨1, 2⟩]) = some (⟨1, 2⟩ : Obs).data ∧
     forecast_dates (⟨1, 2⟩ : Obs).data forecast_steps
       = [(⟨1, 2⟩ : Obs).data + 1, (⟨1, 2⟩ : Obs).data + 2,
          (⟨1, 2⟩ : Obs).data + 3, (⟨1, 2⟩ : Obs).data + 4,
          (⟨1, 2⟩ : Obs).data + 5, (⟨1, 2⟩ : Obs).data + 6] ∧
     List.Chain' (fun a b => b = a + 1)
       (forecast_dates (⟨1, 2⟩ : Obs).data forecast_steps) ∧
     (forecast_dates (⟨1, 2⟩ : Obs).data forecast_steps).head?
       = some ((⟨1, 2⟩ : Obs).data + 1) ∧
     (predict_df (forecast_dates (⟨1, 2⟩ : Obs).data forecast_steps)
        [((0 : ℚ), (0 : ℚ), (0 : ℚ)), (0, 0, 0), (0, 0, 0), (0, 0, 0),
         (0, 0, 0), (0, 0, 0)]).length = forecast_steps) :=
  ⟨by decide, by decide, by decide,
    c6_forecast_shape [⟨0, 1⟩, ⟨1, 2⟩] ⟨1, 2⟩ (by decide) (by decide)
      [((0 : ℚ), (0 : ℚ), (0 : ℚ)), (0, 0, 0), (0, 0, 0), (0, 0, 0),
       (0, 0, 0), (0, 0, 0)] (by decide)⟩

/-- Claim C8: for a sorted deduplicated series, `asfreq` reindexes onto
the strict monthly grid from the first to the last observed month —
the index is exactly that consecutive range, every observation appears
with its value, every missing month appears as the explicit gap marker
`none` (distinct from `some 0`) — and the page fits the model on
exactly this reindexed series. -/
theorem c8_reindexing (rows : List Obs) (r x : Obs)
    (hsorted : List.Pairwise (fun a b : Obs => a.data < b.data) rows)
    (hr : rows.head? = some r) (hx : rows.getLast? = some x) :
    (asfreqMS rows).map Prod.fst
      = List.range' r.data (x.data + 1 - r.data) ∧
    (∀ o ∈ rows, (o.data, some o.valor) ∈ asfreqMS rows) ∧
    (∀ m, r.data ≤ m → m ≤ x.data → m ∉ rows.map Obs.data →
      ((m, none) : Nat × Option ℚ) ∈ asfreqMS rows) ∧
    (∀ m : Nat, ((m, none) : Nat × Option ℚ) ≠ (m, some 0)) ∧
    (∀ (df : DF) (dr : List Nat)
        (f₁ f₂ : List (Nat × Option ℚ) → Option (List FPoint)),
      df.hasData = true →
      f₁ (asfreqMS (sortRows df.rows)) = f₂ (asfreqMS (sortRows df.rows)) →
      renderPage df dr f₁ = renderPage df dr f₂) := by
  cases rows with
  | nil => simp at hr
  | cons rr t =>
  have hrr : rr = r := by simpa using hr
  subst hrr
  have hnd := sorted_data_nodup hsorted
  have hle := sorted_le_getLast (rr :: t) hsorted x hx
  have hge := sorted_head_le_mem hsorted
  refine ⟨?_, ?_, ?_, ?_, ?_⟩
  · rw [asfreqMS_eq (rr :: t) rr x rfl hx, List.map_map]
    rw [List.range'_eq_map_range]
    rfl
  · intro o ho
    have h1 : rr.data ≤ o.data := hge o ho
    have h2 : o.data ≤ x.data := hle o ho
    rw [asfreqMS_eq (rr :: t) rr x rfl hx]
    refine List.mem_map.mpr ⟨o.data - rr.data, List.mem_range.mpr ?_, ?_⟩
    · omega
    · have harith : rr.data + (o.data - rr.data) = o.data := by omega
      rw [harith, lookupMonth_eq_some hnd ho]
  · intro m hm1 hm2 hm3
    rw [asfreqMS_eq (rr :: t) rr x rfl hx]
    refine List.mem_map.mpr ⟨m - rr.data, List.mem_range.mpr ?_, ?_⟩
    · omega
    · have harith : rr.data + (m - rr.data) = m := by omega
      rw [harith, lookupMonth_eq_none hm3]
  · intro m
    simp
  · intro df dr f₁ f₂ hdf heq
    have hs : sort_values_data df = Except.ok ⟨true, sortRows df.rows⟩ := by
      simp [sort_values_data, hdf]
    simp only [renderPage, hs]
    rw [heq]

/-- Witness for claim C8, on the series with observations at months 0
and 2 and a gap at month 1. -/
theorem c8_witness :
    List.Pairwise (fun a b : Obs => a.data < b.data) [⟨0, 1⟩, ⟨2, 3⟩] ∧
    [(⟨0, 1⟩ : Obs), ⟨2, 3⟩].head? = some ⟨0, 1⟩ ∧
    [(⟨0, 1⟩ : Obs), ⟨2, 3⟩].getLast? = some ⟨2, 3⟩ ∧
    ((asfreqMS [⟨0, 1⟩, ⟨2, 3⟩]).map Prod.fst
        = List.range' (⟨0, 1⟩ : Obs).data
            ((⟨2, 3⟩ : Obs).data + 1 - (⟨0, 1⟩ : Obs).data) ∧
     (∀ o ∈ [(⟨0, 1⟩ : Obs), ⟨2, 3⟩],
        (o.data, some o.valor) ∈ asfreqMS [⟨0, 1⟩, ⟨2, 3⟩]) ∧
     (∀ m, (⟨0, 1⟩ : Obs).data ≤ m → m ≤ (⟨2, 3⟩ : Obs).data →
        m ∉ [(⟨0, 1⟩ : Obs), ⟨2, 3⟩].map Obs.data →
        ((m, none) : Nat × Option ℚ) ∈ asfreqMS [⟨0, 1⟩, ⟨2, 3⟩]) ∧
     (∀ m : Nat, ((m, none) : Nat × Option ℚ) ≠ (m, some 0)) ∧
     (∀ (df : DF) (dr : List Nat)
         (f₁ f₂ : List (Nat × Option ℚ) → Option (List FPoint)),
       df.hasData = true →
       f₁ (asfreqMS (sortRows df.rows))
         = f₂ (asfreqMS (sortRows df.rows)) →
       renderPage df dr f₁ = renderPage df dr f₂)) :=
  ⟨by decide, by decide, by decide,
    c8_reindexing [⟨0, 1⟩, ⟨2, 3⟩] ⟨0, 1⟩ ⟨2, 3⟩ (by decide) (by decide)
      (by decide)⟩

/-- Claim C3 (code bug): on a failed fetch the script receives the
empty, column-less frame, and the forecast preparation at line 113 —
which runs outside the try block — raises an uncaught `KeyError` that
aborts the page render; by contrast, when the fetch succeeds and only
the model fit fails inside the try block, the KPI block still renders
and the forecast degrades to its stage warning. -/
theorem c3_uncaught_fetch_fault :
    fetch_inflation_data none = ⟨false, []⟩ ∧
    renderPage (fetch_inflation_data none) [0, 1] (fun _ => none)
      = Except.error PandasError.keyError ∧
    renderPage (fetch_inflation_data (some [⟨0, 1⟩])) [0, 0] (fun _ => none)
      = Except.ok ⟨kpiBlock [⟨0, 1⟩] [0, 0], ForecastRender.warn⟩ :=
  ⟨rfl, rfl, rfl⟩

end BrazilInflation
